import Mathlib

/-!
Shallow embedding of the core logic of the movies-explorer web application
(an Express + Mongoose movie catalog) together with proofs about it.

Conventions of the embedding:
* JavaScript strings are Lean `String`s; the string operations the code uses
  (`startsWith`, `slice`, `trim`) are implemented over the character list
  `String.data` so that they compute by kernel reduction.
* JavaScript numbers are modelled as `Int` (the code only ever compares and
  adds them; fractional values never influence any branch proved below).
* `parseInt` of a query parameter is modelled as `Option Int`, `none`
  standing for `NaN` (missing or non-numeric input).
* External library calls whose exact output never matters
  (`Date.getFullYear`, `Number.toFixed(1)`, `jwt.verify`) are taken as
  explicit function parameters, so every theorem holds for all of them.
* The Mongo collections are modelled as Lean lists of records; `find` is
  `List.filter`, `findOne`/`findOneAndUpdate` act on the first match, and
  `deleteOne` removes the first match.
-/

/-- JavaScript `s.startsWith(p)`, computed on the character lists. -/
def jsStartsWith (s p : String) : Bool :=
  p.data.isPrefixOf s.data

/-- JavaScript `s.slice(n)` for a non-negative index, on the character list. -/
def jsDrop (s : String) (n : Nat) : String :=
  ⟨s.data.drop n⟩

/-- JavaScript `s.trim()`: strip leading and trailing whitespace. -/
def jsTrim (s : String) : String :=
  ⟨((s.data.dropWhile Char.isWhitespace).reverse.dropWhile Char.isWhitespace).reverse⟩

/-- The identity carried by a verified token: the payload `{ id, role }`
signed at login (`server.js`, login handler). -/
structure Identity where
  id : Nat
  role : String
  deriving DecidableEq

/-- Outcome of the auth middleware: either an error response with an HTTP
status, or the request proceeds with the decoded user attached. -/
inductive AuthResult where
  | denied (status : Nat) (error : String)
  | allowed (user : Identity)
  deriving DecidableEq

/-- Embedding of `middleware/auth.js`.

`verify` models `jwt.verify` (`none` = the library throws: bad signature or
expired).  `requiredRole` is the middleware parameter (default `null` in the
source, hence `Option`); the JavaScript guard `requiredRole && ...` makes an
empty string behave like no required role, which the embedding reproduces.
`authHeader` is `req.headers.authorization` (`none` = header absent; the
source replaces an absent header by the empty string).  A token that is
`null` or the empty string fails the `!token` check and is rejected before
any verification. -/
def authGate (verify : String → Option Identity) (requiredRole : Option String)
    (authHeader : Option String) : AuthResult :=
  let header := authHeader.getD ("")
  let token : Option String :=
    if jsStartsWith header ("Bearer ") then some (jsDrop header 7) else none
  match token with
  | none => AuthResult.denied 401 ("No token, authorization denied")
  | some t =>
    if t = ("") then AuthResult.denied 401 ("No token, authorization denied")
    else
      match verify t with
      | none => AuthResult.denied 401 ("Token is not valid")
      | some decoded =>
        match requiredRole with
        | none => AuthResult.allowed decoded
        | some role =>
          if role ≠ ("") ∧ decoded.role ≠ role then AuthResult.denied 403 ("Forbidden")
          else AuthResult.allowed decoded

/-- One element of a Mongo sub-document list such as `movie.genres`: the
mapper in `server.js` accepts either a plain string or an object whose
`name` property may be missing (`g?.name` yields `undefined`). -/
inductive SubEntry where
  | str (s : String)
  | obj (name : Option String)
  deriving DecidableEq

/-- A loosely typed string field of a raw document: either an actual string
or anything else (missing, number, object, ...), which every
`typeof x === "string"` test in the mapper treats uniformly. -/
inductive StrField where
  | str (s : String)
  | other
  deriving DecidableEq

/-- A loosely typed list field of a raw document (`movie.genres`,
`movie.production_countries`): an array, a string, or anything else
(missing included), matching the `Array.isArray` / `typeof === "string"`
cascade in the mapper. -/
inductive ListField where
  | arr (xs : List SubEntry)
  | str (s : String)
  | other
  deriving DecidableEq

/-- The callback `g => (typeof g === "string" ? g : g?.name)` applied to one
sub-document entry; `none` is the JavaScript `undefined`. -/
def subEntryText : SubEntry → Option String
  | SubEntry.str s => some s
  | SubEntry.obj n => n

/-- JavaScript `.filter(Boolean)` over the mapped entries: drop `undefined`
and empty strings, keep the rest. -/
def filterBoolean : List (Option String) → List String
  | [] => []
  | some s :: rest => if s = ("") then filterBoolean rest else s :: filterBoolean rest
  | none :: rest => filterBoolean rest

/-- A raw movie document as the card mapper reads it.  Only the fields the
mapper touches are modelled; numbers are `Int`; `release_date` is an
optional string whose truthiness test makes both a missing value and the
empty string fall to the empty-year branch; `vote_average` and `runtime`
are `none` when the field is not a number. -/
structure MovieDoc where
  id : Int
  title : StrField
  original_title : StrField
  genres : ListField
  production_countries : ListField
  release_date : Option String
  poster_url : StrField
  vote_average : Option Int
  runtime : Option Int
  overview : StrField
  deriving DecidableEq

/-- The flattened card view produced by `mapMovieForCard` in `server.js`.
`year` is `none` where the JavaScript value is the empty string. -/
structure CardView where
  id : Int
  title : String
  year : Option Int
  poster_url : String
  genresText : String
  countryText : String
  rating : String
  runtimeText : String
  overviewShort : String
  deriving DecidableEq

/-- Embedding of `mapMovieForCard` (`server.js`).  `getFullYear` models
`new Date(d).getFullYear()` and `toFixed1` models `n.toFixed(1)`; both are
external library calls taken as parameters. -/
def mapMovieForCard (getFullYear : String → Int) (toFixed1 : Int → String)
    (movie : MovieDoc) : CardView :=
  let safeTitle :=
    match movie.title with
    | StrField.str s => s
    | StrField.other =>
      match movie.original_title with
      | StrField.str s => s
      | StrField.other => ""
  let genres :=
    match movie.genres with
    | ListField.arr gs =>
      String.intercalate (" • ") ((filterBoolean (gs.map subEntryText)).take 3)
    | ListField.str s => s
    | ListField.other => ""
  let countries :=
    match movie.production_countries with
    | ListField.arr cs =>
      String.intercalate (", ") ((filterBoolean (cs.map subEntryText)).take 2)
    | ListField.str s => s
    | ListField.other => ""
  let year : Option Int :=
    match movie.release_date with
    | some d => if d = ("") then none else some (getFullYear d)
    | none => none
  { id := movie.id
    title := safeTitle
    year := year
    poster_url :=
      match movie.poster_url with
      | StrField.str s => s
      | StrField.other => ""
    genresText := genres
    countryText := countries
    rating :=
      match movie.vote_average with
      | some v => toFixed1 v
      | none => "N/A"
    runtimeText :=
      match movie.runtime with
      | some n => if n = 0 then "" else toString n ++ (" min")
      | none => ""
    overviewShort :=
      match movie.overview with
      | StrField.str s => s
      | StrField.other => "" }

/-- The locals that the `GET /movies` handler passes to the template (the
subset relevant to pagination and the movie list). -/
structure MoviesPageView where
  currentPage : Int
  totalPages : Nat
  hasPrevPage : Bool
  hasNextPage : Bool
  movies : List CardView
  deriving DecidableEq

/-- Embedding of the `GET /movies` handler in `server.js` (page computation,
card mapping and the rendered-list filter).  `pageParam` is
`parseInt(req.query.page)` (`none` = `NaN`); `pageDocs` is the slice of
documents the store returns for the computed page; `totalCount` is the
result of `countDocuments`.  `Math.ceil(totalCount / 30)` becomes Nat
ceiling division.  The `typeof === "string"` tests of the rendered-list
filter are identically true here since `CardView` fields are strings. -/
def moviesRoute (getFullYear : String → Int) (toFixed1 : Int → String)
    (pageParam : Option Int) (pageDocs : List MovieDoc) (totalCount : Nat) :
    MoviesPageView :=
  let page : Int :=
    match pageParam with
    | some n => if n > 0 then n else 1
    | none => 1
  let moviesMapped := pageDocs.map (mapMovieForCard getFullYear toFixed1)
  let movies := moviesMapped.filter
    (fun m => jsTrim m.title ≠ ("") ∧ jsTrim m.poster_url ≠ (""))
  let totalPages : Nat := (totalCount + 29) / 30
  { currentPage := page
    totalPages := totalPages
    hasPrevPage := page > 1
    hasNextPage := page < (totalPages : Int)
    movies := movies }

/-- Embedding of the page computation of `getPaginatedMovies`
(`controllers/movieController.js`): `parseInt(req.query.page) || 1` (note
that `0` is falsy), then clamp below at 1 and above at `totalPages`. -/
def getPaginatedMoviesPage (pageParam : Option Int) (totalPages : Int) : Int :=
  let page : Int :=
    match pageParam with
    | some n => if n = 0 then 1 else n
    | none => 1
  let page := if page < 1 then 1 else page
  if page > totalPages then totalPages else page

/-- One pagination button produced by `buildPagination`. -/
structure PageButton where
  number : Int
  isCurrent : Bool
  deriving DecidableEq

/-- The fixed window size of `buildPagination`. -/
def pagMaxButtons : Int := 5

/-- `let start = Math.max(1, currentPage - Math.floor(maxButtons / 2))`. -/
def pagStart (currentPage : Int) : Int :=
  max 1 (currentPage - pagMaxButtons / 2)

/-- `let end = Math.min(totalPages, start + maxButtons - 1)`. -/
def pagStop (currentPage totalPages : Int) : Int :=
  min totalPages (pagStart currentPage + pagMaxButtons - 1)

/-- `if (end - start < maxButtons - 1) start = Math.max(1, end - maxButtons + 1)`;
the stop value is not recomputed afterwards, exactly as in the source. -/
def pagStartShifted (currentPage totalPages : Int) : Int :=
  if pagStop currentPage totalPages - pagStart currentPage < pagMaxButtons - 1 then
    max 1 (pagStop currentPage totalPages - pagMaxButtons + 1)
  else pagStart currentPage

/-- Embedding of `buildPagination` (`controllers/movieController.js`): the
loop `for (i = start; i <= end; i++) pages.push({number: i, isCurrent: i === currentPage})`. -/
def buildPagination (currentPage totalPages : Int) : List PageButton :=
  (List.range (pagStop currentPage totalPages - pagStartShifted currentPage totalPages + 1).toNat).map
    (fun k : Nat =>
      { number := pagStartShifted currentPage totalPages + (k : Int)
        isCurrent := pagStartShifted currentPage totalPages + (k : Int) = currentPage })

/-- A persisted watchlist document.  The schema (`watchlistItemSchema`)
declares exactly the fields `user`, `movieId`, `movieTitle`, `poster_url`
(plus timestamps, which no claim touches); Mongoose strict mode discards
any other property passed to the constructor. -/
structure WatchlistRecord where
  _id : Nat
  user : Nat
  movieId : Int
  movieTitle : String
  poster_url : String
  deriving DecidableEq

/-- The body of a `POST /api/watchlist` request. -/
structure WatchlistBody where
  movieId : Int
  movieTitle : String
  poster_url : String
  status : Option String
  deriving DecidableEq

/-- `new WatchlistItem({user, movieId, movieTitle, poster_url, status: status || "planned"})`
followed by `save()`: the handler computes a status value, but the schema
defines no such path, so strict mode drops it from the persisted record. -/
def newWatchlistItem (uid newId : Nat) (b : WatchlistBody) : WatchlistRecord :=
  let _status := b.status.getD ("planned")
  { _id := newId
    user := uid
    movieId := b.movieId
    movieTitle := b.movieTitle
    poster_url := b.poster_url }

/-- Embedding of the `POST /api/watchlist` handler: append the new record to
the store and echo it in the 201 response.  `newId` models the generated
object id. -/
def postWatchlist (db : List WatchlistRecord) (uid newId : Nat) (b : WatchlistBody) :
    List WatchlistRecord × WatchlistRecord :=
  let item := newWatchlistItem uid newId b
  (db ++ [item], item)

/-- Embedding of the `GET /api/watchlist` handler:
`WatchlistItem.find({user: req.user.id})`. -/
def getWatchlist (db : List WatchlistRecord) (uid : Nat) : List WatchlistRecord :=
  db.filter (fun r => r.user == uid)

/-- The scoping filter `{_id: req.params.id, user: req.user.id}` of the
watchlist delete handler. -/
def wlMatches (rid uid : Nat) (r : WatchlistRecord) : Bool :=
  r._id == rid && r.user == uid

/-- `WatchlistItem.deleteOne({_id, user})`: remove the first matching record
and report the deleted count. -/
def deleteOneWatchlist (rid uid : Nat) (db : List WatchlistRecord) :
    Nat × List WatchlistRecord :=
  if db.any (wlMatches rid uid) then (1, db.eraseP (wlMatches rid uid)) else (0, db)

/-- A persisted review document (`Review` model). -/
structure ReviewRecord where
  _id : Nat
  user : Nat
  movieId : Int
  rating : Int
  comment : String
  deriving DecidableEq

/-- The scoping filter `{_id: req.params.id, user: req.user.id}` used by the
review update and delete handlers. -/
def reviewMatches (rid uid : Nat) (r : ReviewRecord) : Bool :=
  r._id == rid && r.user == uid

/-- `Review.findOneAndUpdate({_id, user}, {rating, comment}, {new: true})`:
update the first matching record and return it, or return `none` when the
filter matches nothing. -/
def findOneAndUpdateReview (rid uid : Nat) (rating : Int) (comment : String) :
    List ReviewRecord → Option ReviewRecord × List ReviewRecord
  | [] => (none, [])
  | r :: rest =>
    if reviewMatches rid uid r then
      (some { r with rating := rating, comment := comment },
        { r with rating := rating, comment := comment } :: rest)
    else
      let out := findOneAndUpdateReview rid uid rating comment rest
      (out.1, r :: out.2)

/-- Status code of the `PUT /api/reviews/:id` handler: 404 when the scoped
update matched nothing, 200 otherwise. -/
def putReviewStatus (db : List ReviewRecord) (rid uid : Nat)
    (rating : Int) (comment : String) : Nat :=
  match (findOneAndUpdateReview rid uid rating comment db).1 with
  | none => 404
  | some _ => 200

/-- `Review.deleteOne({_id, user})`: remove the first matching record and
report the deleted count. -/
def deleteOneReview (rid uid : Nat) (db : List ReviewRecord) :
    Nat × List ReviewRecord :=
  if db.any (reviewMatches rid uid) then (1, db.eraseP (reviewMatches rid uid)) else (0, db)

/-- Status code of the `DELETE /api/reviews/:id` handler: 404 when
`deletedCount` is 0, 200 otherwise. -/
def deleteReviewStatus (db : List ReviewRecord) (rid uid : Nat) : Nat :=
  if (deleteOneReview rid uid db).1 = 0 then 404 else 200

/-- A well-formed bearer header starts with the literal prefix. -/
theorem bearer_startsWith (t : String) :
    jsStartsWith ("Bearer " ++ t) ("Bearer ") = true := by
  simp [jsStartsWith, String.data_append]

/-- Dropping the 7-character prefix of a well-formed bearer header yields
the raw token. -/
theorem bearer_drop (t : String) : jsDrop ("Bearer " ++ t) 7 = t := by
  have h7 : ("Bearer ").data.length = 7 := by decide
  simp only [jsDrop, String.data_append]
  rw [← h7, List.drop_left]

example : jsStartsWith ("bearer x") ("Bearer ") = false := by decide
example : jsDrop ("Bearer abc") 7 = "abc" := by decide

/-- C5: the auth gate, for every verifier, required role, token and decoded
identity: a missing authorization header is rejected 401; a bearer token
whose verification fails is rejected 401; a verified token with a declared
(non-empty) required role different from the decoded role is rejected 403;
otherwise (no required role, or the roles match) the decoded identity is
attached and the request proceeds. -/
theorem auth_gate_contract (verify : String → Option Identity)
    (requiredRole : Option String) (t : String) (d : Identity) (role : String) :
    (authGate verify requiredRole none =
      AuthResult.denied 401 ("No token, authorization denied")) ∧
    (t ≠ ("") → verify t = none →
      authGate verify requiredRole (some ("Bearer " ++ t)) =
        AuthResult.denied 401 ("Token is not valid")) ∧
    (t ≠ ("") → verify t = some d → role ≠ ("") → d.role ≠ role →
      authGate verify (some role) (some ("Bearer " ++ t)) =
        AuthResult.denied 403 ("Forbidden")) ∧
    (t ≠ ("") → verify t = some d →
      authGate verify none (some ("Bearer " ++ t)) = AuthResult.allowed d) ∧
    (t ≠ ("") → verify t = some d → d.role = role →
      authGate verify (some role) (some ("Bearer " ++ t)) = AuthResult.allowed d) := by
  refine ⟨?_, ?_, ?_, ?_, ?_⟩
  · have hempty : jsStartsWith ("") ("Bearer ") = false := by decide
    simp [authGate, hempty]
  · intro ht hv
    simp [authGate, bearer_startsWith, bearer_drop, ht, hv]
  · intro ht hv hr hd
    simp [authGate, bearer_startsWith, bearer_drop, ht, hv, hr, hd]
  · intro ht hv
    simp [authGate, bearer_startsWith, bearer_drop, ht, hv]
  · intro ht hv hd
    simp [authGate, bearer_startsWith, bearer_drop, ht, hv, hd]

/-- Witness for C5 at concrete inputs: a verifier accepting exactly the
token abc as user 9 with role admin, exercised on each branch. -/
theorem auth_gate_contract_witness :
    (authGate (fun s => if s = ("abc") then some ⟨9, "admin"⟩ else none)
        (some ("admin")) none =
      AuthResult.denied 401 ("No token, authorization denied")) ∧
    (authGate (fun s => if s = ("abc") then some ⟨9, "admin"⟩ else none)
        (some ("admin")) (some ("Bearer xyz")) =
      AuthResult.denied 401 ("Token is not valid")) ∧
    (authGate (fun s => if s = ("abc") then some ⟨9, "admin"⟩ else none)
        (some ("editor")) (some ("Bearer abc")) =
      AuthResult.denied 403 ("Forbidden")) ∧
    (authGate (fun s => if s = ("abc") then some ⟨9, "admin"⟩ else none)
        none (some ("Bearer abc")) = AuthResult.allowed ⟨9, "admin"⟩) ∧
    (authGate (fun s => if s = ("abc") then some ⟨9, "admin"⟩ else none)
        (some ("admin")) (some ("Bearer abc")) = AuthResult.allowed ⟨9, "admin"⟩) := by
  have h1 := (auth_gate_contract (fun s => if s = ("abc") then some ⟨9, "admin"⟩ else none)
    (some ("admin")) ("xyz") ⟨9, "admin"⟩ ("admin")).1
  have h2 := (auth_gate_contract (fun s => if s = ("abc") then some ⟨9, "admin"⟩ else none)
    (some ("admin")) ("xyz") ⟨9, "admin"⟩ ("admin")).2.1 (by decide) (by decide)
  have h3 := (auth_gate_contract (fun s => if s = ("abc") then some ⟨9, "admin"⟩ else none)
    (some ("editor")) ("abc") ⟨9, "admin"⟩ ("editor")).2.2.1
    (by decide) (by decide) (by decide) (by decide)
  have h4 := (auth_gate_contract (fun s => if s = ("abc") then some ⟨9, "admin"⟩ else none)
    none ("abc") ⟨9, "admin"⟩ ("admin")).2.2.2.1 (by decide) (by decide)
  have h5 := (auth_gate_contract (fun s => if s = ("abc") then some ⟨9, "admin"⟩ else none)
    (some ("admin")) ("abc") ⟨9, "admin"⟩ ("admin")).2.2.2.2 (by decide) (by decide) (by decide)
  have hx : ("Bearer ") ++ ("xyz") = ("Bearer xyz") := by decide
  have ha : ("Bearer ") ++ ("abc") = ("Bearer abc") := by decide
  rw [hx] at h2
  rw [ha] at h3 h4 h5
  exact ⟨h1, h2, h3, h4, h5⟩

/-- C10: any authorization header that does not begin with the exact,
case-sensitive prefix Bearer-plus-space is treated as an absent credential:
the gate answers 401 with the no-token error for every verifier, so no
signature verification can influence the outcome. -/
theorem auth_gate_nonbearer (verify : String → Option Identity)
    (requiredRole : Option String) (header : String)
    (h : jsStartsWith header ("Bearer ") = false) :
    authGate verify requiredRole (some header) =
      AuthResult.denied 401 ("No token, authorization denied") := by
  simp [authGate, h]

/-- Witness for C10: a lowercase bearer header carrying a token the
verifier would accept is still rejected 401. -/
theorem auth_gate_nonbearer_witness :
    jsStartsWith ("bearer abc") ("Bearer ") = false ∧
    authGate (fun _ => some ⟨9, "admin"⟩) none (some ("bearer abc")) =
      AuthResult.denied 401 ("No token, authorization denied") :=
  ⟨by decide, auth_gate_nonbearer (fun _ => some ⟨9, "admin"⟩) none ("bearer abc") (by decide)⟩

/-- With at least five total pages, the shifted window spans exactly the
fixed button count. -/
theorem pag_window_size (cp tp : Int) (h : 5 ≤ tp) :
    pagStop cp tp - pagStartShifted cp tp = 4 := by
  unfold pagStartShifted pagStop pagStart pagMaxButtons
  split <;> omega

/-- For an in-range current page, the current page lies inside the shifted
window. -/
theorem pag_mem_bounds (cp tp : Int) (h1 : 1 ≤ cp) (h2 : cp ≤ tp) :
    pagStartShifted cp tp ≤ cp ∧ cp ≤ pagStop cp tp := by
  unfold pagStartShifted pagStop pagStart pagMaxButtons
  split <;> omega

/-- C2 counterexample: at currentPage 7, totalPages 6 the claim fails as
stated: the window is [2..6] and contains no entry numbered 7, so the
conjunction (five entries and contains currentPage) is false. -/
theorem pagination_window_cex :
    ¬ ((buildPagination 7 6).length = 5 ∧
        ∃ b ∈ buildPagination 7 6, b.number = (7 : Int)) := by
  decide

/-- C2 amended: for every currentPage and every totalPages greater than 5,
the window has exactly 5 entries; it contains an entry numbered currentPage
whenever currentPage is in range (1 ≤ currentPage ≤ totalPages). -/
theorem pagination_window_props (cp tp : Int) (h : 5 < tp) :
    (buildPagination cp tp).length = 5 ∧
    (1 ≤ cp → cp ≤ tp → ∃ b ∈ buildPagination cp tp, b.number = cp) := by
  have hw := pag_window_size cp tp (by omega)
  have hlen : (buildPagination cp tp).length =
      (pagStop cp tp - pagStartShifted cp tp + 1).toNat := by
    unfold buildPagination
    rw [List.length_map, List.length_range]
  constructor
  · omega
  · intro h1 h2
    obtain ⟨hlo, hhi⟩ := pag_mem_bounds cp tp h1 h2
    have hk : (cp - pagStartShifted cp tp).toNat <
        (pagStop cp tp - pagStartShifted cp tp + 1).toNat := by omega
    have hmem := List.mem_map_of_mem
      (fun k : Nat =>
        ({ number := pagStartShifted cp tp + (k : Int)
           isCurrent := pagStartShifted cp tp + (k : Int) = cp } : PageButton))
      (List.mem_range.mpr hk)
    refine ⟨_, hmem, ?_⟩
    show pagStartShifted cp tp + ((cp - pagStartShifted cp tp).toNat : Int) = cp
    omega

/-- Witness for C2 amended at currentPage 4, totalPages 9. -/
theorem pagination_window_props_witness :
    (buildPagination 4 9).length = 5 ∧
    (∃ b ∈ buildPagination 4 9, b.number = (4 : Int)) :=
  ⟨(pagination_window_props 4 9 (by decide)).1,
    (pagination_window_props 4 9 (by decide)).2 (by decide) (by decide)⟩

/-- C3: when 1 ≤ totalPages ≤ 5 and the current page is in range, the
window is exactly the full ascending page list 1, ..., totalPages. -/
theorem pagination_small_total (cp tp : Int)
    (h1 : 1 ≤ tp) (h2 : tp ≤ 5) (h3 : 1 ≤ cp) (h4 : cp ≤ tp) :
    (buildPagination cp tp).map PageButton.number =
      (List.range tp.toNat).map (fun k => (k : Int) + 1) := by
  interval_cases tp <;> interval_cases cp <;> decide

/-- Witness for C3 at currentPage 2, totalPages 3: the window is [1, 2, 3]. -/
theorem pagination_small_total_witness :
    (buildPagination 2 3).map PageButton.number =
      (List.range (3 : Int).toNat).map (fun k => (k : Int) + 1) :=
  pagination_small_total 2 3 (by decide) (by decide) (by decide) (by decide)

/-- The current page the `GET /movies` handler renders, by definition. -/
theorem moviesRoute_currentPage (gfy : String → Int) (tf1 : Int → String)
    (pageParam : Option Int) (docs : List MovieDoc) (totalCount : Nat) :
    (moviesRoute gfy tf1 pageParam docs totalCount).currentPage =
      (match pageParam with
       | some n => if n > 0 then n else 1
       | none => 1) := rfl

/-- C1 counterexample: requesting page 10 of a listing with 90 matching
documents (3 pages) renders currentPage 10, above totalPages, so the
`GET /movies` route does not clamp the page into [1, totalPages]. -/
theorem movies_page_upper_clamp_cex :
    (moviesRoute (fun _ => 0) (fun _ => ("")) (some 10) [] 90).totalPages = 3 ∧
    (moviesRoute (fun _ => 0) (fun _ => ("")) (some 10) [] 90).currentPage = 10 ∧
    ¬ ((moviesRoute (fun _ => 0) (fun _ => ("")) (some 10) [] 90).currentPage ≤
        ((moviesRoute (fun _ => 0) (fun _ => ("")) (some 10) [] 90).totalPages : Int)) := by
  decide

/-- C1 amended: the `GET /movies` route clamps only from below: the
rendered currentPage is always at least 1, and equals 1 whenever the page
parameter is non-numeric, zero, or negative; the full clamp into
[1, totalPages] is implemented only by `getPaginatedMovies` in
`controllers/movieController.js` (for any positive totalPages), which
`server.js` does not attach to the route. -/
theorem movies_page_clamp_amended (gfy : String → Int) (tf1 : Int → String)
    (pageParam : Option Int) (docs : List MovieDoc) (totalCount : Nat) (tp : Int) :
    1 ≤ (moviesRoute gfy tf1 pageParam docs totalCount).currentPage ∧
    ((∀ n, pageParam = some n → n ≤ 0) →
      (moviesRoute gfy tf1 pageParam docs totalCount).currentPage = 1) ∧
    (1 ≤ tp →
      1 ≤ getPaginatedMoviesPage pageParam tp ∧
        getPaginatedMoviesPage pageParam tp ≤ tp) := by
  refine ⟨?_, ?_, ?_⟩
  · rcases pageParam with _ | n
    · simp [moviesRoute_currentPage]
    · simp only [moviesRoute_currentPage]
      split <;> omega
  · intro hle
    rcases pageParam with _ | n
    · simp [moviesRoute_currentPage]
    · have hn := hle n rfl
      simp only [moviesRoute_currentPage]
      split <;> omega
  · intro htp
    rcases pageParam with _ | n <;>
      simp only [getPaginatedMoviesPage] <;> split_ifs <;> omega

/-- Witness for C1 amended at page parameter 0, totalCount 90, controller
totalPages 3. -/
theorem movies_page_clamp_amended_witness :
    1 ≤ (moviesRoute (fun _ => 0) (fun _ => ("")) (some 0) [] 90).currentPage ∧
    (moviesRoute (fun _ => 0) (fun _ => ("")) (some 0) [] 90).currentPage = 1 ∧
    (1 ≤ getPaginatedMoviesPage (some 0) 3 ∧ getPaginatedMoviesPage (some 0) 3 ≤ 3) :=
  ⟨(movies_page_clamp_amended (fun _ => 0) (fun _ => ("")) (some 0) [] 90 3).1,
    (movies_page_clamp_amended (fun _ => 0) (fun _ => ("")) (some 0) [] 90 3).2.1
      (by intro n h; injection h with h2; omega),
    (movies_page_clamp_amended (fun _ => 0) (fun _ => ("")) (some 0) [] 90 3).2.2
      (by decide)⟩

/-- C6: the card mapper passes a string-valued genres field through to
genresText unchanged, and maps a genres field that is neither an array nor
a string (missing included) to the empty string. -/
theorem card_genres_passthrough (gfy : String → Int) (tf1 : Int → String)
    (movie : MovieDoc) :
    (∀ s, movie.genres = ListField.str s →
      (mapMovieForCard gfy tf1 movie).genresText = s) ∧
    (movie.genres = ListField.other →
      (mapMovieForCard gfy tf1 movie).genresText = ("")) := by
  constructor
  · intro s hs
    simp [mapMovieForCard, hs]
  · intro hs
    simp [mapMovieForCard, hs]

/-- Witness for C6 on two concrete documents: genres the string Drama, and
genres missing. -/
theorem card_genres_passthrough_witness :
    (mapMovieForCard (fun _ => 0) (fun _ => (""))
      { id := 1, title := StrField.str ("T"), original_title := StrField.other,
        genres := ListField.str ("Drama"), production_countries := ListField.other,
        release_date := none, poster_url := StrField.other, vote_average := none,
        runtime := none, overview := StrField.other }).genresText = ("Drama") ∧
    (mapMovieForCard (fun _ => 0) (fun _ => (""))
      { id := 1, title := StrField.str ("T"), original_title := StrField.other,
        genres := ListField.other, production_countries := ListField.other,
        release_date := none, poster_url := StrField.other, vote_average := none,
        runtime := none, overview := StrField.other }).genresText = ("") :=
  ⟨(card_genres_passthrough (fun _ => 0) (fun _ => (""))
      { id := 1, title := StrField.str ("T"), original_title := StrField.other,
        genres := ListField.str ("Drama"), production_countries := ListField.other,
        release_date := none, poster_url := StrField.other, vote_average := none,
        runtime := none, overview := StrField.other }).1 ("Drama") rfl,
    (card_genres_passthrough (fun _ => 0) (fun _ => (""))
      { id := 1, title := StrField.str ("T"), original_title := StrField.other,
        genres := ListField.other, production_countries := ListField.other,
        release_date := none, poster_url := StrField.other, vote_average := none,
        runtime := none, overview := StrField.other }).2 rfl⟩

/-- C9: every card in the movie list the `GET /movies` route renders has a
title and a poster URL that are non-empty after trimming. -/
theorem movies_render_nonempty (gfy : String → Int) (tf1 : Int → String)
    (pageParam : Option Int) (docs : List MovieDoc) (totalCount : Nat) (m : CardView)
    (hm : m ∈ (moviesRoute gfy tf1 pageParam docs totalCount).movies) :
    jsTrim m.title ≠ ("") ∧ jsTrim m.poster_url ≠ ("") := by
  have h : (moviesRoute gfy tf1 pageParam docs totalCount).movies =
      (docs.map (mapMovieForCard gfy tf1)).filter
        (fun m => jsTrim m.title ≠ ("") ∧ jsTrim m.poster_url ≠ ("")) := rfl
  rw [h] at hm
  have hp := (List.mem_filter.mp hm).2
  simpa using hp

/-- Witness for C9: a document titled A with poster p survives the filter
and its card has non-empty trimmed title and poster URL. -/
theorem movies_render_nonempty_witness :
    jsTrim (mapMovieForCard (fun _ => 0) (fun _ => (""))
      { id := 1, title := StrField.str ("A"), original_title := StrField.other,
        genres := ListField.other, production_countries := ListField.other,
        release_date := none, poster_url := StrField.str ("p"), vote_average := none,
        runtime := none, overview := StrField.other }).title ≠ ("") ∧
    jsTrim (mapMovieForCard (fun _ => 0) (fun _ => (""))
      { id := 1, title := StrField.str ("A"), original_title := StrField.other,
        genres := ListField.other, production_countries := ListField.other,
        release_date := none, poster_url := StrField.str ("p"), vote_average := none,
        runtime := none, overview := StrField.other }).poster_url ≠ ("") :=
  movies_render_nonempty (fun _ => 0) (fun _ => ("")) none
    [{ id := 1, title := StrField.str ("A"), original_title := StrField.other,
       genres := ListField.other, production_countries := ListField.other,
       release_date := none, poster_url := StrField.str ("p"), vote_average := none,
       runtime := none, overview := StrField.other }] 1
    (mapMovieForCard (fun _ => 0) (fun _ => (""))
      { id := 1, title := StrField.str ("A"), original_title := StrField.other,
        genres := ListField.other, production_countries := ListField.other,
        release_date := none, poster_url := StrField.str ("p"), vote_average := none,
        runtime := none, overview := StrField.other })
    (by decide)

/-- When no record of the store satisfies the scoping filter, the scoped
update finds nothing. -/
theorem findOneAndUpdateReview_none (rid uid : Nat) (rating : Int) (comment : String)
    (db : List ReviewRecord) (h : ∀ r ∈ db, reviewMatches rid uid r = false) :
    (findOneAndUpdateReview rid uid rating comment db).1 = none := by
  induction db with
  | nil => rfl
  | cons r rest ih =>
    have hr := h r (List.mem_cons_self r rest)
    have hrest := ih (fun x hx => h x (List.mem_cons_of_mem r hx))
    simp [findOneAndUpdateReview, hr, hrest]

/-- C4: a PUT or DELETE on a review whose record belongs to a different
user answers 404 (and never 403): the scoping filter matches no record. -/
theorem review_mutation_scoped_404 (db : List ReviewRecord) (rid caller : Nat)
    (rating : Int) (comment : String)
    (_hex : ∃ r ∈ db, r._id = rid)
    (hown : ∀ r ∈ db, r._id = rid → r.user ≠ caller) :
    putReviewStatus db rid caller rating comment = 404 ∧
    putReviewStatus db rid caller rating comment ≠ 403 ∧
    deleteReviewStatus db rid caller = 404 ∧
    deleteReviewStatus db rid caller ≠ 403 := by
  have hfalse : ∀ r ∈ db, reviewMatches rid caller r = false := by
    intro r hr
    unfold reviewMatches
    by_cases h1 : r._id = rid
    · have h2 := hown r hr h1
      simp [h1, h2]
    · simp [h1]
  have hupd := findOneAndUpdateReview_none rid caller rating comment db hfalse
  have hany : db.any (reviewMatches rid caller) = false := by
    rw [List.any_eq_false]
    intro r hr
    rw [hfalse r hr]
    simp
  refine ⟨?_, ?_, ?_, ?_⟩
  · simp [putReviewStatus, hupd]
  · simp [putReviewStatus, hupd]
  · simp [deleteReviewStatus, deleteOneReview, hany]
  · simp [deleteReviewStatus, deleteOneReview, hany]

/-- Witness for C4: user 7 tries to mutate review 1 owned by user 42. -/
theorem review_mutation_scoped_404_witness :
    putReviewStatus [{ _id := 1, user := 42, movieId := 5, rating := 4, comment := ("ok") }]
        1 7 3 ("x") = 404 ∧
    putReviewStatus [{ _id := 1, user := 42, movieId := 5, rating := 4, comment := ("ok") }]
        1 7 3 ("x") ≠ 403 ∧
    deleteReviewStatus [{ _id := 1, user := 42, movieId := 5, rating := 4, comment := ("ok") }]
        1 7 = 404 ∧
    deleteReviewStatus [{ _id := 1, user := 42, movieId := 5, rating := 4, comment := ("ok") }]
        1 7 ≠ 403 :=
  review_mutation_scoped_404
    [{ _id := 1, user := 42, movieId := 5, rating := 4, comment := ("ok") }]
    1 7 3 ("x") (by decide) (by decide)

/-- C7: after creating a watchlist item with a fresh id, the owner fetch
contains the created record; after deleting it through the scoped delete,
the owner fetch no longer contains it. -/
theorem watchlist_round_trip (db : List WatchlistRecord) (uid newId : Nat)
    (b : WatchlistBody) (hfresh : ∀ r ∈ db, r._id ≠ newId) :
    (postWatchlist db uid newId b).2 ∈ getWatchlist (postWatchlist db uid newId b).1 uid ∧
    (postWatchlist db uid newId b).2 ∉
      getWatchlist (deleteOneWatchlist newId uid (postWatchlist db uid newId b).1).2 uid := by
  have hsnd : (postWatchlist db uid newId b).2 = newWatchlistItem uid newId b := rfl
  have hfst : (postWatchlist db uid newId b).1 = db ++ [newWatchlistItem uid newId b] := rfl
  have hitem_id : (newWatchlistItem uid newId b)._id = newId := rfl
  have hitem_user : (newWatchlistItem uid newId b).user = uid := rfl
  have hitem_match : wlMatches newId uid (newWatchlistItem uid newId b) = true := by
    simp [wlMatches, hitem_id, hitem_user]
  have hdb_nomatch : ∀ r ∈ db, ¬ wlMatches newId uid r = true := by
    intro r hr hmatch
    rw [wlMatches] at hmatch
    simp only [Bool.and_eq_true, beq_iff_eq] at hmatch
    exact hfresh r hr hmatch.1
  constructor
  · rw [hsnd, hfst]
    unfold getWatchlist
    rw [List.mem_filter]
    refine ⟨List.mem_append_right _ ?_, by simp [hitem_user]⟩
    exact List.mem_singleton.mpr rfl
  · rw [hsnd, hfst]
    have hany : (db ++ [newWatchlistItem uid newId b]).any (wlMatches newId uid) = true := by
      rw [List.any_eq_true]
      exact ⟨newWatchlistItem uid newId b,
        List.mem_append_right _ (List.mem_singleton.mpr rfl), hitem_match⟩
    have hdel : (deleteOneWatchlist newId uid (db ++ [newWatchlistItem uid newId b])).2 = db := by
      unfold deleteOneWatchlist
      rw [hany]
      simp only [if_true]
      rw [List.eraseP_append_right _ hdb_nomatch]
      simp [List.eraseP_cons, hitem_match]
    rw [hdel]
    unfold getWatchlist
    rw [List.mem_filter]
    rintro ⟨hmem, -⟩
    exact hfresh (newWatchlistItem uid newId b) hmem hitem_id

/-- Witness for C7: user 1 creates item 5 in an empty store, fetches it,
deletes it, and no longer fetches it. -/
theorem watchlist_round_trip_witness :
    (postWatchlist [] 1 5 { movieId := 10, movieTitle := ("T"), poster_url := ("p"), status := none }).2 ∈
      getWatchlist (postWatchlist [] 1 5 { movieId := 10, movieTitle := ("T"), poster_url := ("p"), status := none }).1 1 ∧
    (postWatchlist [] 1 5 { movieId := 10, movieTitle := ("T"), poster_url := ("p"), status := none }).2 ∉
      getWatchlist (deleteOneWatchlist 5 1 (postWatchlist [] 1 5 { movieId := 10, movieTitle := ("T"), poster_url := ("p"), status := none }).1).2 1 :=
  watchlist_round_trip [] 1 5
    { movieId := 10, movieTitle := ("T"), poster_url := ("p"), status := none }
    (by decide)

/-- C8: the status value in a `POST /api/watchlist` body does not influence
the handler result: the schema has no status path, so two create requests
differing only in status produce the same stored state and response. -/
theorem watchlist_status_not_persisted (db : List WatchlistRecord) (uid newId : Nat)
    (movieId : Int) (movieTitle posterUrl : String) (s1 s2 : Option String) :
    postWatchlist db uid newId
        { movieId := movieId, movieTitle := movieTitle, poster_url := posterUrl,
          status := s1 } =
      postWatchlist db uid newId
        { movieId := movieId, movieTitle := movieTitle, poster_url := posterUrl,
          status := s2 } := rfl
